import Mathlib

/-!
# Verification of the `kern` resource-governance watchdog

Shallow embedding of the enforcement engine (`src/enforcer.rs`), the
process-termination protocol (`src/killer.rs`) and the notification gate
(`src/notify.rs`).  Floating-point quantities (`f64` percentages and
temperatures) are modelled as rationals (`ℚ`); `Instant` timestamps are
modelled as natural numbers of milliseconds; the OS-side outcome of each
`kill` system call is supplied by an oracle `killOk : Nat → Bool` giving,
per pid, whether the termination call succeeds.

The `NotificationManager` is modelled as a standalone state machine
(`src/notify.rs` keeps per-category last-fired timestamps); the enforcement
functions never read any notification state to make a kill decision, so the
kill-decision model omits it and the notification gate is verified
separately.
-/

namespace Kern

/-! ## Data model (`src/monitor.rs`, `src/config.rs`, `src/profiles.rs`) -/

/-- `monitor.rs` `ProcessInfo`: one process sample. -/
structure ProcessInfo where
  pid : Nat
  name : String
  memory_gb : ℚ
  cpu_percentage : ℚ
deriving DecidableEq

/-- `monitor.rs` `SystemStats`: a point-in-time snapshot
(`total_memory_gb`/`used_memory_gb` are omitted: the enforcer never reads
them). `top_processes` is ordered by descending memory. -/
structure SystemStats where
  cpu_usage : ℚ
  memory_percentage : ℚ
  temperature : ℚ
  top_processes : List ProcessInfo
deriving DecidableEq

/-- `config.rs` `TemperatureConfig`. -/
structure TemperatureConfig where
  warning : ℚ
  critical : ℚ
deriving DecidableEq

/-- `config.rs` `NotificationConfig`. -/
structure NotificationConfig where
  enabled : Bool
  show_on_kill : Bool
  show_on_profile_switch : Bool
deriving DecidableEq

/-- `config.rs` `KernConfig`, restricted to the fields the enforcer and
killer read (`default_profile`, `monitor_interval` and the global default
`limits` are never consulted by `enforce_once`). `kill_graceful` is the
flag `enforcer.rs` passes to every `kill_process` call. -/
structure KernConfig where
  temperature : TemperatureConfig
  protected_processes : List String
  kill_graceful : Bool
  notifications : NotificationConfig
deriving DecidableEq

/-- `profiles.rs` `ProfileResourceLimits`. -/
structure ProfileResourceLimits where
  max_cpu_percent : ℚ
  max_ram_percent : ℚ
  max_temp : ℚ
deriving DecidableEq

/-- `profiles.rs` `Profile` (the `description` and `auto_activate` fields are
never read by the enforcer and are omitted). `protectedList` embeds the
source field `protected` (a Lean keyword). -/
structure Profile where
  name : String
  protectedList : List String
  kill_on_activate : List String
  limits : ProfileResourceLimits
deriving DecidableEq

/-! ## Termination protocol classification (`src/killer.rs`) -/

/-- `killer.rs` `is_protected`: exact, case-sensitive membership. -/
def is_protected (name : String) (protected_list : List String) : Bool :=
  protected_list.any (fun protected_name => protected_name == name)

/-- The fixed critical-process list hardcoded in `killer.rs`
`is_critical_process`. -/
def critical_processes : List String :=
  ["systemd", "gnome-shell", "Xwayland", "X", "Xvfb",
   "dbus-daemon", "bluetoothd", "wpa_supplicant",
   "NetworkManager", "ModemManager", "upowerd",
   "systemd-logind", "login", "sshd", "sudo"]

/-- `killer.rs` `is_critical_process`. -/
def is_critical_process (name : String) : Bool :=
  critical_processes.any (fun critical => critical == name)

/-- One termination attempt, as recorded by `log_kill_action`
(pid, name, graceful flag, success of the kill call). -/
structure KillAttempt where
  pid : Nat
  name : String
  graceful : Bool
  success : Bool
deriving DecidableEq

/-! ## Enforcement engine (`src/enforcer.rs`) -/

/-- `enforcer.rs` `Enforcer`: the engine state
(`notification_manager` modelled separately, see module comment). -/
structure Enforcer where
  config : KernConfig
  current_profile : Profile
  emergency_mode : Bool
  emergency_since : Option Nat
  last_enforcement : Nat
deriving DecidableEq

/-- `Enforcer::new` (`now` stands for the `Instant::now()` taken in the
constructor). -/
def Enforcer.new (config : KernConfig) (current_profile : Profile)
    (now : Nat) : Enforcer :=
  { config := config
    current_profile := current_profile
    emergency_mode := false
    emergency_since := none
    last_enforcement := now }

/-- The skip condition both kill loops of `enforcer.rs` use: protected by
the active profile, protected globally, or critical. -/
def skip_process (cfg : KernConfig) (prof : Profile) (p : ProcessInfo) : Bool :=
  is_protected p.name prof.protectedList
    || is_protected p.name cfg.protected_processes
    || is_critical_process p.name

/-- `Enforcer::kill_heaviest_process`: scan `top_processes` in order, skip
protected/critical, attempt to kill the first candidate; on a failed kill
continue with the next candidate.  Returns (action_taken, attempts). -/
def kill_heaviest_process (cfg : KernConfig) (prof : Profile)
    (killOk : Nat → Bool) : List ProcessInfo → Bool × List KillAttempt
  | [] => (false, [])
  | p :: rest =>
    if skip_process cfg prof p then
      kill_heaviest_process cfg prof killOk rest
    else if killOk p.pid then
      (true, [⟨p.pid, p.name, cfg.kill_graceful, true⟩])
    else
      let r := kill_heaviest_process cfg prof killOk rest
      (r.1, ⟨p.pid, p.name, cfg.kill_graceful, false⟩ :: r.2)

/-- `Enforcer::handle_emergency_mode`: attempt to kill every
non-protected, non-critical process.  Returns (killed_count, attempts). -/
def handle_emergency_mode (cfg : KernConfig) (prof : Profile)
    (killOk : Nat → Bool) : List ProcessInfo → Nat × List KillAttempt
  | [] => (0, [])
  | p :: rest =>
    if skip_process cfg prof p then
      handle_emergency_mode cfg prof killOk rest
    else
      let r := handle_emergency_mode cfg prof killOk rest
      if killOk p.pid then
        (r.1 + 1, ⟨p.pid, p.name, cfg.kill_graceful, true⟩ :: r.2)
      else
        (r.1, ⟨p.pid, p.name, cfg.kill_graceful, false⟩ :: r.2)

/-- `Enforcer::enforce_resource_limits`: the CPU → RAM → temperature-warning
checks, each able to produce one `kill_heaviest_process` call.  Returns
(action_taken, attempts). -/
def enforce_resource_limits (cfg : KernConfig) (prof : Profile)
    (killOk : Nat → Bool) (stats : SystemStats) : Bool × List KillAttempt :=
  let r1 :=
    if stats.cpu_usage > prof.limits.max_cpu_percent then
      kill_heaviest_process cfg prof killOk stats.top_processes
    else (false, [])
  let r2 :=
    if stats.memory_percentage > prof.limits.max_ram_percent then
      kill_heaviest_process cfg prof killOk stats.top_processes
    else (false, [])
  let r3 :=
    if stats.temperature > cfg.temperature.warning
        && stats.temperature < cfg.temperature.critical then
      kill_heaviest_process cfg prof killOk stats.top_processes
    else (false, [])
  (r1.1 || r2.1 || r3.1, r1.2 ++ r2.2 ++ r3.2)

/-- The body of `Enforcer::enforce_once` after a successful snapshot fetch:
emergency-exit check, then emergency entry/continuation, else the resource
limits; finally `last_enforcement` is set to now.  Returns
(new state, action_taken, attempts). -/
def enforce_once_with (e : Enforcer) (stats : SystemStats) (now : Nat)
    (killOk : Nat → Bool) : Enforcer × Bool × List KillAttempt :=
  let e1 :=
    if e.emergency_mode && stats.temperature < e.config.temperature.warning
    then { e with emergency_mode := false, emergency_since := none }
    else e
  let step : Enforcer × Bool × List KillAttempt :=
    if !e1.emergency_mode
        && stats.temperature > e1.config.temperature.critical then
      let e2 := { e1 with emergency_mode := true, emergency_since := some now }
      let r := handle_emergency_mode e2.config e2.current_profile killOk
        stats.top_processes
      (e2, decide (r.1 > 0), r.2)
    else if e1.emergency_mode then
      let r := handle_emergency_mode e1.config e1.current_profile killOk
        stats.top_processes
      (e1, decide (r.1 > 0), r.2)
    else
      let r := enforce_resource_limits e1.config e1.current_profile killOk stats
      (e1, r.1, r.2)
  ({ step.1 with last_enforcement := now }, step.2.1, step.2.2)

/-- `Enforcer::enforce_once`: `get_system_stats()?` is modelled by the
`fetch` argument; `none` is a failed snapshot fetch, which propagates the
error before any state is touched. -/
def enforce_once (e : Enforcer) (fetch : Option SystemStats) (now : Nat)
    (killOk : Nat → Bool) :
    Except Unit (Enforcer × Bool × List KillAttempt) :=
  match fetch with
  | none => .error ()
  | some stats => .ok (enforce_once_with e stats now killOk)

/-- One iteration of `run_enforcer_loop`: on `Err` the loop logs and
continues with the engine state untouched, never terminating the loop. -/
def loop_iter (e : Enforcer) (fetch : Option SystemStats) (now : Nat)
    (killOk : Nat → Bool) : Enforcer × List KillAttempt :=
  match enforce_once e fetch now killOk with
  | .error _ => (e, [])
  | .ok r => (r.1, r.2.2)

/-- `killer.rs` `find_processes_by_name` over an explicit process table
(pid, name): exact name match. -/
def find_processes_by_name (table : List (Nat × String)) (name : String) :
    List Nat :=
  (table.filter (fun pr => pr.2 == name)).map (fun pr => pr.1)

/-- `Enforcer::switch_profile`: for every name in `kill_on_activate`,
resolve live pids and attempt each kill unless the name is critical (the
protected lists are not consulted); then install the new profile and clear
the emergency state. -/
def switch_profile (e : Enforcer) (table : List (Nat × String))
    (killOk : Nat → Bool) (new_profile : Profile) :
    Enforcer × List KillAttempt :=
  let kills := new_profile.kill_on_activate.flatMap (fun proc_name =>
    (find_processes_by_name table proc_name).filterMap (fun pid =>
      if is_critical_process proc_name then none
      else some ⟨pid, proc_name, e.config.kill_graceful, killOk pid⟩))
  ({ e with current_profile := new_profile
            emergency_mode := false
            emergency_since := none }, kills)

/-! ## Graceful-termination escalation (`killer.rs` `kill_process`,
`graceful == true` branch)

The protocol is modelled as the trace of signal-send events it produces,
time-stamped in milliseconds of slept time since the call (real elapsed
time is at least the slept time).  `alive t` says whether the target is
still alive `t` ms in; the source checks liveness by re-sending `SIGTERM`
and looking for an `ESRCH` error, so every liveness check on a live target
is itself a `SIGTERM` send. -/

inductive Signal where
  | sigterm
  | sigkill
deriving DecidableEq

structure SigEvent where
  time_ms : Nat
  signal : Signal
deriving DecidableEq

/-- The 50-iteration polling loop of `kill_process` (graceful branch):
each iteration sleeps 100 ms then probes with `SIGTERM`; if the target is
gone, return with success; after the fuel is exhausted, send `SIGKILL`. -/
def graceful_poll (alive : Nat → Bool) : Nat → Nat → List SigEvent
  | 0, t => [⟨t, .sigkill⟩]
  | n + 1, t =>
    let t1 := t + 100
    if alive t1 then ⟨t1, .sigterm⟩ :: graceful_poll alive n t1
    else []

/-- `kill_process(pid, graceful := true)`: initial `SIGTERM` at time 0
(already-dead target is immediate success with no event), then the
polling loop. -/
def kill_process_graceful (alive : Nat → Bool) : List SigEvent :=
  if alive 0 then ⟨0, .sigterm⟩ :: graceful_poll alive 50 0
  else []

/-! ## Notification gate (`src/notify.rs`)

Each `notify_*` method is a function from manager state and the current
time (ms) to the updated state and whether the notification was passed to
`send_notification` (“delivered”).  `Instant::elapsed` becomes `now - last`
(time is monotone, so `now ≥ last` whenever `last` was recorded). -/

/-- `notify.rs` `NotificationManager`. -/
structure NotificationManager where
  enabled : Bool
  show_on_kill : Bool
  show_on_profile_switch : Bool
  last_kill_notification : Option Nat
  last_emergency_notification : Option Nat
  last_warning_notification : Option Nat
  min_interval_between_notifications : Nat
deriving DecidableEq

/-- `NotificationManager::new`: rate limit 3 s (3000 ms). -/
def NotificationManager.new (config : NotificationConfig) :
    NotificationManager :=
  { enabled := config.enabled
    show_on_kill := config.show_on_kill
    show_on_profile_switch := config.show_on_profile_switch
    last_kill_notification := none
    last_emergency_notification := none
    last_warning_notification := none
    min_interval_between_notifications := 3000 }

/-- `notify_process_killed`: gated on `enabled` and `show_on_kill`,
rate-limited by `last_kill_notification` against the 3 s interval. -/
def notify_process_killed (m : NotificationManager) (now : Nat) :
    NotificationManager × Bool :=
  if !m.enabled || !m.show_on_kill then (m, false)
  else
    match m.last_kill_notification with
    | some last =>
      if now - last < m.min_interval_between_notifications then (m, false)
      else ({ m with last_kill_notification := some now }, true)
    | none => ({ m with last_kill_notification := some now }, true)

/-- `notify_emergency_mode`: gated on `enabled`, rate-limited by
`last_emergency_notification` against a hardcoded 5 s interval. -/
def notify_emergency_mode (m : NotificationManager) (now : Nat) :
    NotificationManager × Bool :=
  if !m.enabled then (m, false)
  else
    match m.last_emergency_notification with
    | some last =>
      if now - last < 5000 then (m, false)
      else ({ m with last_emergency_notification := some now }, true)
    | none => ({ m with last_emergency_notification := some now }, true)

/-- `notify_emergency_mode_resolved`: gated on `enabled` only — the source
applies no rate limiting and records no timestamp for this notification. -/
def notify_emergency_mode_resolved (m : NotificationManager) (_now : Nat) :
    NotificationManager × Bool :=
  if !m.enabled then (m, false) else (m, true)

/-- `notify_resource_limit_exceeded`: gated on `enabled`, rate-limited by
`last_warning_notification` against the 3 s interval. -/
def notify_resource_limit_exceeded (m : NotificationManager) (now : Nat) :
    NotificationManager × Bool :=
  if !m.enabled then (m, false)
  else
    match m.last_warning_notification with
    | some last =>
      if now - last < m.min_interval_between_notifications then (m, false)
      else ({ m with last_warning_notification := some now }, true)
    | none => ({ m with last_warning_notification := some now }, true)

/-- `notify_temperature_warning`: same gate and shared
`last_warning_notification` timestamp as `notify_resource_limit_exceeded`. -/
def notify_temperature_warning (m : NotificationManager) (now : Nat) :
    NotificationManager × Bool :=
  if !m.enabled then (m, false)
  else
    match m.last_warning_notification with
    | some last =>
      if now - last < m.min_interval_between_notifications then (m, false)
      else ({ m with last_warning_notification := some now }, true)
    | none => ({ m with last_warning_notification := some now }, true)

/-! ## Concrete fixtures (default config values from `config.rs` and a
small synthetic snapshot) used to instantiate theorems. -/

/-- Default thresholds: warning 75 °C, critical 85 °C. -/
def demoTempConfig : TemperatureConfig := ⟨75, 85⟩

def demoNotifyConfig : NotificationConfig := ⟨true, true, true⟩

/-- Default global config: protected list from `default_protected_processes`. -/
def demoConfig : KernConfig :=
  ⟨demoTempConfig, ["systemd", "gnome-shell", "kern"], true, demoNotifyConfig⟩

/-- Default limits: CPU 90 %, RAM 85 %, temp 85 °C. -/
def demoLimits : ProfileResourceLimits := ⟨90, 85, 85⟩

def demoProfile : Profile := ⟨"normal", ["shell"], [], demoLimits⟩

/-- An ordinary, unprotected, non-critical process. -/
def demoProc : ProcessInfo := ⟨10, "firefox", 2, 50⟩

def allKillsSucceed : Nat → Bool := fun _ => true

/-! ## Helper lemmas about the kill loops -/

/-- The condition claim C1 forbids on any termination target. -/
def attempt_protected (cfg : KernConfig) (prof : Profile)
    (a : KillAttempt) : Bool :=
  is_protected a.name prof.protectedList
    || is_protected a.name cfg.protected_processes
    || is_critical_process a.name

theorem kill_heaviest_not_protected (cfg : KernConfig) (prof : Profile)
    (killOk : Nat → Bool) (procs : List ProcessInfo) :
    ((kill_heaviest_process cfg prof killOk procs).2).all
      (fun a => !attempt_protected cfg prof a) = true := by
  induction procs with
  | nil => rfl
  | cons p rest ih =>
    by_cases hskip : skip_process cfg prof p = true
    · simpa [kill_heaviest_process, hskip] using ih
    · have hname : attempt_protected cfg prof
          ⟨p.pid, p.name, cfg.kill_graceful, true⟩ = false ∧
          attempt_protected cfg prof
          ⟨p.pid, p.name, cfg.kill_graceful, false⟩ = false := by
        simp only [skip_process, Bool.not_eq_true] at hskip
        exact ⟨hskip, hskip⟩
      by_cases hok : killOk p.pid = true
      · simp [kill_heaviest_process, hskip, hok, hname.1]
      · simp only [kill_heaviest_process, hskip, hok, if_false, ite_false,
          Bool.false_eq_true, List.all_cons, hname.2, Bool.not_false,
          Bool.true_and]
        exact ih

theorem handle_emergency_not_protected (cfg : KernConfig) (prof : Profile)
    (killOk : Nat → Bool) (procs : List ProcessInfo) :
    ((handle_emergency_mode cfg prof killOk procs).2).all
      (fun a => !attempt_protected cfg prof a) = true := by
  induction procs with
  | nil => rfl
  | cons p rest ih =>
    by_cases hskip : skip_process cfg prof p = true
    · simpa [handle_emergency_mode, hskip] using ih
    · have hname : ∀ s, attempt_protected cfg prof
          ⟨p.pid, p.name, cfg.kill_graceful, s⟩ = false := by
        intro s
        simp only [skip_process, Bool.not_eq_true] at hskip
        exact hskip
      by_cases hok : killOk p.pid = true <;>
        simp [handle_emergency_mode, hskip, hok, hname, ih]

theorem enforce_limits_not_protected (cfg : KernConfig) (prof : Profile)
    (killOk : Nat → Bool) (stats : SystemStats) :
    ((enforce_resource_limits cfg prof killOk stats).2).all
      (fun a => !attempt_protected cfg prof a) = true := by
  have hk := kill_heaviest_not_protected cfg prof killOk stats.top_processes
  simp only [enforce_resource_limits]
  split <;> split <;> split <;> simp_all [List.all_append]

/-- C1: For every enforcement state (Normal or Emergency) and every
snapshot, no process whose name matches the global protected list, the
active profile's protected list, or the fixed critical-process set is
ever the target of a termination attempt issued by the engine during an
enforcement cycle. -/
theorem C1_protected_never_targeted (e : Enforcer) (stats : SystemStats)
    (now : Nat) (killOk : Nat → Bool) :
    ((enforce_once_with e stats now killOk).2.2).all
      (fun a => !(is_protected a.name e.current_profile.protectedList
        || is_protected a.name e.config.protected_processes
        || is_critical_process a.name)) = true := by
  show ((enforce_once_with e stats now killOk).2.2).all
      (fun a => !attempt_protected e.config e.current_profile a) = true
  simp only [enforce_once_with]
  split
  · split
    · exact handle_emergency_not_protected _ _ _ _
    · split
      · exact handle_emergency_not_protected _ _ _ _
      · exact enforce_limits_not_protected _ _ _ _
  · split
    · exact handle_emergency_not_protected _ _ _ _
    · split
      · exact handle_emergency_not_protected _ _ _ _
      · exact enforce_limits_not_protected _ _ _ _

/-- C9: a failed snapshot fetch makes `enforce_once` return the error with
the engine state untouched and no termination attempt, and the enforcement
loop iteration continues with the same state instead of terminating. -/
theorem C9_fetch_failure_skips_cycle (e : Enforcer) (now : Nat)
    (killOk : Nat → Bool) :
    enforce_once e none now killOk = .error () ∧
    loop_iter e none now killOk = (e, []) :=
  ⟨rfl, rfl⟩

/-- `kill_heaviest_process` attempts exactly the first non-skipped process
when its kill call succeeds. -/
theorem kill_heaviest_find (cfg : KernConfig) (prof : Profile)
    (killOk : Nat → Bool) (procs : List ProcessInfo) (p : ProcessInfo)
    (hfind : procs.find? (fun q => !skip_process cfg prof q) = some p)
    (hok : killOk p.pid = true) :
    kill_heaviest_process cfg prof killOk procs =
      (true, [⟨p.pid, p.name, cfg.kill_graceful, true⟩]) := by
  induction procs with
  | nil => simp at hfind
  | cons q rest ih =>
    by_cases hskip : skip_process cfg prof q = true
    · rw [List.find?_cons_of_neg _ (by simp [hskip])] at hfind
      simp only [kill_heaviest_process, hskip, if_true]
      exact ih hfind
    · rw [List.find?_cons_of_pos _ (by simp [hskip])] at hfind
      obtain rfl : q = p := by injection hfind
      simp [kill_heaviest_process, hskip, hok]

/-- `handle_emergency_mode` attempts exactly the eligible processes, in
snapshot order, recording the oracle outcome of each kill call. -/
theorem handle_emergency_attempts (cfg : KernConfig) (prof : Profile)
    (killOk : Nat → Bool) (procs : List ProcessInfo) :
    (handle_emergency_mode cfg prof killOk procs).2 =
      (procs.filter (fun q => !skip_process cfg prof q)).map
        (fun q => ⟨q.pid, q.name, cfg.kill_graceful, killOk q.pid⟩) := by
  induction procs with
  | nil => rfl
  | cons q rest ih =>
    by_cases hskip : skip_process cfg prof q = true
    · simp [handle_emergency_mode, List.filter_cons, hskip, ih]
    · by_cases hok : killOk q.pid = true <;>
        simp [handle_emergency_mode, List.filter_cons, hskip, hok, ih]

/-! ## C2: exiting emergency mode -/

/-- An engine in emergency mode (default config and profile). -/
def emgEnforcer : Enforcer :=
  { config := demoConfig
    current_profile := demoProfile
    emergency_mode := true
    emergency_since := some 0
    last_enforcement := 0 }

/-- Cool temperature (50 < warning 75) but CPU over the 90 % limit. -/
def cooledBusyStats : SystemStats := ⟨95, 50, 50, [demoProc]⟩

/-- C2 counterexample: a cycle starting in Emergency with temperature
below the warning threshold but CPU above the profile limit does issue a
termination attempt, contradicting “no termination attempt is issued
during that cycle”. -/
theorem C2_counterexample :
    emgEnforcer.emergency_mode = true ∧
    cooledBusyStats.temperature < emgEnforcer.config.temperature.warning ∧
    (enforce_once_with emgEnforcer cooledBusyStats 7 allKillsSucceed).2.2 ≠
      [] := by decide

/-- C2 (amended): a cycle starting in Emergency with temperature strictly
below the warning threshold (thresholds well-formed, warning ≤ critical,
as config validation guarantees) always transitions back to Normal and
unsets `emergency_since` — even when CPU or memory limits are breached;
no termination attempt is issued during that cycle if, additionally, CPU
and memory are within the active profile's limits. -/
theorem C2_exit_emergency (e : Enforcer) (stats : SystemStats) (now : Nat)
    (killOk : Nat → Bool)
    (hemg : e.emergency_mode = true)
    (htemp : stats.temperature < e.config.temperature.warning)
    (hwc : e.config.temperature.warning ≤ e.config.temperature.critical) :
    (enforce_once_with e stats now killOk).1.emergency_mode = false ∧
    (enforce_once_with e stats now killOk).1.emergency_since = none ∧
    (stats.cpu_usage ≤ e.current_profile.limits.max_cpu_percent →
     stats.memory_percentage ≤ e.current_profile.limits.max_ram_percent →
     (enforce_once_with e stats now killOk).2.2 = []) := by
  have hc1 : ¬ stats.temperature > e.config.temperature.critical :=
    not_lt.mpr (le_trans htemp.le hwc)
  have hc4 : ¬ stats.temperature > e.config.temperature.warning :=
    not_lt.mpr htemp.le
  refine ⟨?_, ?_, ?_⟩
  · simp [enforce_once_with, hemg, htemp, hc1]
  · simp [enforce_once_with, hemg, htemp, hc1]
  · intro hcpu hram
    have hc2 : ¬ stats.cpu_usage >
        e.current_profile.limits.max_cpu_percent := not_lt.mpr hcpu
    have hc3 : ¬ stats.memory_percentage >
        e.current_profile.limits.max_ram_percent := not_lt.mpr hram
    simp [enforce_once_with, enforce_resource_limits, hemg, htemp,
      hc1, hc2, hc3, hc4]

/-- A snapshot breaching nothing (all metrics at 50). -/
def calmStats : SystemStats := ⟨50, 50, 50, [demoProc]⟩

theorem C2_witness :
    emgEnforcer.emergency_mode = true ∧
    calmStats.temperature < emgEnforcer.config.temperature.warning ∧
    ((enforce_once_with emgEnforcer calmStats 7
        allKillsSucceed).1.emergency_mode = false ∧
     (enforce_once_with emgEnforcer calmStats 7
        allKillsSucceed).1.emergency_since = none ∧
     (calmStats.cpu_usage ≤
        emgEnforcer.current_profile.limits.max_cpu_percent →
      calmStats.memory_percentage ≤
        emgEnforcer.current_profile.limits.max_ram_percent →
      (enforce_once_with emgEnforcer calmStats 7 allKillsSucceed).2.2 = [])) :=
  ⟨rfl, by decide,
   C2_exit_emergency emgEnforcer calmStats 7 allKillsSucceed rfl
     (by decide) (by decide)⟩

/-! ## C3: the temperature-warning band in Normal mode -/

/-- An engine in Normal mode (default config and profile). -/
def normalEnforcer : Enforcer :=
  { config := demoConfig
    current_profile := demoProfile
    emergency_mode := false
    emergency_since := none
    last_enforcement := 0 }

/-- Temperature exactly at the critical threshold (85 = critical),
CPU and RAM within limits, one eligible process present. -/
def atCriticalStats : SystemStats := ⟨50, 50, 85, [demoProc]⟩

/-- C3 counterexample: with temperature exactly equal to the critical
threshold (and strictly above warning), the engine issues zero
termination attempts — the source's warning-band check is
`temperature > warning && temperature < critical`, strict at critical —
contradicting “attempts to kill exactly one heaviest eligible process”. -/
theorem C3_counterexample :
    normalEnforcer.emergency_mode = false ∧
    normalEnforcer.config.temperature.warning <
      atCriticalStats.temperature ∧
    atCriticalStats.temperature ≤
      normalEnforcer.config.temperature.critical ∧
    (∃ q ∈ atCriticalStats.top_processes,
      ¬ skip_process normalEnforcer.config
          normalEnforcer.current_profile q = true) ∧
    (enforce_once_with normalEnforcer atCriticalStats 7 allKillsSucceed).2.2
      = [] := by decide

/-- C3 (amended): for a cycle starting in Normal with
`warning < temperature < critical` (strictly below critical), CPU and
memory within the profile limits, the engine stays in Normal and attempts
to kill exactly one process — the first eligible (heaviest) one — when
that kill call succeeds. -/
theorem C3_warning_band_single_kill (e : Enforcer) (stats : SystemStats)
    (now : Nat) (killOk : Nat → Bool)
    (hemg : e.emergency_mode = false)
    (hw : e.config.temperature.warning < stats.temperature)
    (hc : stats.temperature < e.config.temperature.critical)
    (hcpu : stats.cpu_usage ≤ e.current_profile.limits.max_cpu_percent)
    (hram : stats.memory_percentage ≤ e.current_profile.limits.max_ram_percent)
    (p : ProcessInfo)
    (hfind : stats.top_processes.find?
      (fun q => !skip_process e.config e.current_profile q) = some p)
    (hok : killOk p.pid = true) :
    enforce_once_with e stats now killOk =
      ({ e with last_enforcement := now }, true,
        [⟨p.pid, p.name, e.config.kill_graceful, true⟩]) := by
  have hkill := kill_heaviest_find e.config e.current_profile killOk
    stats.top_processes p hfind hok
  have hc1 : ¬ stats.temperature > e.config.temperature.critical :=
    not_lt.mpr hc.le
  have hc2 : ¬ stats.cpu_usage > e.current_profile.limits.max_cpu_percent :=
    not_lt.mpr hcpu
  have hc3 : ¬ stats.memory_percentage >
      e.current_profile.limits.max_ram_percent := not_lt.mpr hram
  simp [enforce_once_with, enforce_resource_limits, hemg, hw, hc,
    hc1, hc2, hc3, hkill]

/-- Temperature strictly inside the warning band (75 < 80 < 85). -/
def warmStats : SystemStats := ⟨50, 50, 80, [demoProc]⟩

theorem C3_witness :
    normalEnforcer.emergency_mode = false ∧
    normalEnforcer.config.temperature.warning < warmStats.temperature ∧
    warmStats.temperature < normalEnforcer.config.temperature.critical ∧
    enforce_once_with normalEnforcer warmStats 7 allKillsSucceed =
      ({ normalEnforcer with last_enforcement := 7 }, true,
        [⟨demoProc.pid, demoProc.name, demoConfig.kill_graceful, true⟩]) :=
  ⟨rfl, by decide, by decide,
   C3_warning_band_single_kill normalEnforcer warmStats 7 allKillsSucceed
     rfl (by decide) (by decide) (by decide) (by decide) demoProc
     (by decide) rfl⟩

/-! ## C4: the uncovered Emergency band `warning ≤ temperature ≤ critical` -/

/-- C4: a cycle starting in Emergency with temperature at least the
warning threshold and at most the critical threshold stays in Emergency
(`emergency_since` untouched) and attempts to terminate every eligible
(non-protected, non-critical) process in the snapshot — the same
`handle_emergency_mode` pass as the temperature-above-critical case. -/
theorem C4_emergency_band_continues (e : Enforcer) (stats : SystemStats)
    (now : Nat) (killOk : Nat → Bool)
    (hemg : e.emergency_mode = true)
    (hlo : e.config.temperature.warning ≤ stats.temperature)
    (hhi : stats.temperature ≤ e.config.temperature.critical) :
    (enforce_once_with e stats now killOk).1 =
      { e with last_enforcement := now } ∧
    (enforce_once_with e stats now killOk).1.emergency_mode = true ∧
    (enforce_once_with e stats now killOk).1.emergency_since =
      e.emergency_since ∧
    (enforce_once_with e stats now killOk).2.2 =
      (stats.top_processes.filter
        (fun q => !skip_process e.config e.current_profile q)).map
        (fun q => ⟨q.pid, q.name, e.config.kill_graceful, killOk q.pid⟩) := by
  have h1 : ¬ stats.temperature < e.config.temperature.warning :=
    not_lt.mpr hlo
  have h2 : ¬ stats.temperature > e.config.temperature.critical :=
    not_lt.mpr hhi
  refine ⟨?_, ?_, ?_, ?_⟩ <;>
    simp [enforce_once_with, hemg, h1, h2, handle_emergency_attempts]

theorem C4_witness :
    emgEnforcer.emergency_mode = true ∧
    emgEnforcer.config.temperature.warning ≤ warmStats.temperature ∧
    warmStats.temperature ≤ emgEnforcer.config.temperature.critical ∧
    ((enforce_once_with emgEnforcer warmStats 7 allKillsSucceed).1 =
      { emgEnforcer with last_enforcement := 7 } ∧
     (enforce_once_with emgEnforcer warmStats 7 allKillsSucceed).1.emergency_mode
       = true ∧
     (enforce_once_with emgEnforcer warmStats 7 allKillsSucceed).1.emergency_since
       = emgEnforcer.emergency_since ∧
     (enforce_once_with emgEnforcer warmStats 7 allKillsSucceed).2.2 =
      (warmStats.top_processes.filter
        (fun q => !skip_process emgEnforcer.config
          emgEnforcer.current_profile q)).map
        (fun q => ⟨q.pid, q.name, emgEnforcer.config.kill_graceful,
          allKillsSucceed q.pid⟩)) :=
  ⟨rfl, by decide, by decide,
   C4_emergency_band_continues emgEnforcer warmStats 7 allKillsSucceed rfl
     (by decide) (by decide)⟩

/-! ## C5: the profile-switch law -/

theorem mem_find_processes (table : List (Nat × String)) (name : String)
    (pid : Nat) :
    pid ∈ find_processes_by_name table name ↔ (pid, name) ∈ table := by
  simp only [find_processes_by_name, List.mem_map, List.mem_filter,
    beq_iff_eq]
  constructor
  · rintro ⟨⟨a, b⟩, ⟨hmem, hb⟩, ha⟩
    simp only at hb ha
    subst hb; subst ha; exact hmem
  · intro h
    exact ⟨(pid, name), ⟨h, rfl⟩, rfl⟩

/-- C5: `switch_profile p` resets the emergency flag (and unsets
`emergency_since`), installs `p`, and attempts termination of exactly the
running processes whose name is in `p.kill_on_activate` and is not
classified critical — the protected lists play no role, so protected
names are still terminated. -/
theorem C5_switch_profile_law (e : Enforcer) (table : List (Nat × String))
    (killOk : Nat → Bool) (p : Profile) :
    (switch_profile e table killOk p).1.emergency_mode = false ∧
    (switch_profile e table killOk p).1.emergency_since = none ∧
    (switch_profile e table killOk p).1.current_profile = p ∧
    ∀ pid name,
      ((⟨pid, name, e.config.kill_graceful, killOk pid⟩ : KillAttempt) ∈
          (switch_profile e table killOk p).2 ↔
        (name ∈ p.kill_on_activate ∧ (pid, name) ∈ table ∧
          is_critical_process name = false)) := by
  refine ⟨rfl, rfl, rfl, ?_⟩
  intro pid name
  simp only [switch_profile, List.mem_flatMap, List.mem_filterMap]
  constructor
  · rintro ⟨pn, hpn, pid1, hmem1, hf⟩
    by_cases hcrit : is_critical_process pn = true
    · simp [hcrit] at hf
    · rw [if_neg hcrit] at hf
      simp only [Option.some.injEq, KillAttempt.mk.injEq] at hf
      obtain ⟨h1, h2, -, -⟩ := hf
      subst h1; subst h2
      exact ⟨hpn, (mem_find_processes table pn pid1).mp hmem1,
        Bool.not_eq_true _ ▸ hcrit⟩
  · rintro ⟨hname, htable, hcrit⟩
    refine ⟨name, hname, pid, (mem_find_processes table name pid).mpr htable,
      ?_⟩
    simp [hcrit]

/-! ## C6: graceful-then-forced escalation timing -/

/-- C6: a graceful termination of a process that never exits sends the
polite signal at time 0, probes liveness every 100 ms through the 5-second
ceiling, and then sends exactly one forceful kill signal, at 5000 ms — no
earlier than 5 seconds after the initial polite signal. -/
theorem C6_graceful_escalation (alive : Nat → Bool)
    (h : ∀ t, alive t = true) :
    kill_process_graceful alive =
      (List.range 51).map (fun k => ⟨100 * k, Signal.sigterm⟩) ++
        [⟨5000, Signal.sigkill⟩] ∧
    ((kill_process_graceful alive).filter
        (fun ev => ev.signal == Signal.sigkill)) =
      [⟨5000, Signal.sigkill⟩] ∧
    (∀ ev ∈ kill_process_graceful alive, ev.signal = Signal.sigkill →
      5000 ≤ ev.time_ms) := by
  have halive : alive = fun _ => true := funext h
  subst halive
  refine ⟨by decide, by decide, by decide⟩

theorem C6_witness :
    kill_process_graceful (fun _ => true) =
      (List.range 51).map (fun k => ⟨100 * k, Signal.sigterm⟩) ++
        [⟨5000, Signal.sigkill⟩] ∧
    ((kill_process_graceful (fun _ => true)).filter
        (fun ev => ev.signal == Signal.sigkill)) =
      [⟨5000, Signal.sigkill⟩] ∧
    (∀ ev ∈ kill_process_graceful (fun _ => true),
      ev.signal = Signal.sigkill → 5000 ≤ ev.time_ms) :=
  C6_graceful_escalation (fun _ => true) (fun _ => rfl)

/-! ## C7: the emergency flag/timestamp invariant -/

/-- The invariant of spec §3: `emergency == true ⇔ emergency_since.is_some()`. -/
def engine_inv (e : Enforcer) : Prop :=
  e.emergency_mode = true ↔ e.emergency_since.isSome = true

/-- Engine states reachable from construction through enforcement cycles
and profile switches. -/
inductive Reachable : Enforcer → Prop where
  | init (cfg : KernConfig) (prof : Profile) (now : Nat) :
      Reachable (Enforcer.new cfg prof now)
  | enforce (e : Enforcer) (fetch : Option SystemStats) (now : Nat)
      (killOk : Nat → Bool) : Reachable e →
      Reachable (loop_iter e fetch now killOk).1
  | switch (e : Enforcer) (table : List (Nat × String))
      (killOk : Nat → Bool) (p : Profile) : Reachable e →
      Reachable (switch_profile e table killOk p).1

/-- One enforcement cycle preserves the emergency invariant. -/
theorem enforce_once_with_inv (e : Enforcer) (stats : SystemStats)
    (now : Nat) (killOk : Nat → Bool) (h : engine_inv e) :
    engine_inv (enforce_once_with e stats now killOk).1 := by
  by_cases h1 : e.emergency_mode = true
  · have hsome : e.emergency_since.isSome = true := h.mp h1
    by_cases h2 : stats.temperature < e.config.temperature.warning
    · by_cases h3 : stats.temperature > e.config.temperature.critical <;>
        simp [enforce_once_with, engine_inv, h1, h2, h3]
    · simp [enforce_once_with, engine_inv, h1, h2, hsome]
  · have hmode : e.emergency_mode = false := by
      cases hb : e.emergency_mode
      · rfl
      · exact absurd hb h1
    have hnone : e.emergency_since.isSome = false := by
      cases hb : e.emergency_since.isSome
      · rfl
      · exact absurd (h.mpr hb) h1
    by_cases h3 : stats.temperature > e.config.temperature.critical <;>
      simp [enforce_once_with, engine_inv, hmode, h3, hnone]

/-- C7: in every reachable engine state — after construction and after
every enforcement cycle or profile switch — the emergency flag is true
iff `emergency_since` is set. -/
theorem C7_emergency_iff_since (e : Enforcer) (h : Reachable e) :
    engine_inv e := by
  induction h with
  | init cfg prof now => simp [engine_inv, Enforcer.new]
  | enforce e fetch now killOk _ ih =>
    cases fetch with
    | none => simpa [loop_iter, enforce_once] using ih
    | some stats =>
      simpa [loop_iter, enforce_once] using
        enforce_once_with_inv e stats now killOk ih
  | switch e table killOk p _ ih => simp [engine_inv, switch_profile]

theorem C7_witness : engine_inv (Enforcer.new demoConfig demoProfile 0) :=
  C7_emergency_iff_since (Enforcer.new demoConfig demoProfile 0)
    (Reachable.init demoConfig demoProfile 0)

/-! ## C8: the no-breach cycle -/

/-- C8 counterexample: a cycle in Normal with a snapshot breaching no
limit still mutates the EngineState — `last_enforcement` is set to the
cycle's timestamp — contradicting “the entire EngineState (including its
last-run timestamp) is unchanged”. -/
theorem C8_counterexample :
    normalEnforcer.emergency_mode = false ∧
    calmStats.cpu_usage ≤
      normalEnforcer.current_profile.limits.max_cpu_percent ∧
    calmStats.memory_percentage ≤
      normalEnforcer.current_profile.limits.max_ram_percent ∧
    calmStats.temperature ≤ normalEnforcer.config.temperature.warning ∧
    (enforce_once_with normalEnforcer calmStats 7 allKillsSucceed).2.2
      = [] ∧
    (enforce_once_with normalEnforcer calmStats 7 allKillsSucceed).1 ≠
      normalEnforcer := by decide

/-- C8 (amended): a cycle starting in Normal with a snapshot breaching no
limit (CPU, memory and temperature at or below their thresholds, with
warning ≤ critical) issues zero termination attempts and leaves the
EngineState unchanged except for `last_enforcement`, which is set to the
cycle's timestamp. -/
theorem C8_no_breach_only_timestamp (e : Enforcer) (stats : SystemStats)
    (now : Nat) (killOk : Nat → Bool)
    (hemg : e.emergency_mode = false)
    (hcpu : stats.cpu_usage ≤ e.current_profile.limits.max_cpu_percent)
    (hram : stats.memory_percentage ≤ e.current_profile.limits.max_ram_percent)
    (htemp : stats.temperature ≤ e.config.temperature.warning)
    (hwc : e.config.temperature.warning ≤ e.config.temperature.critical) :
    enforce_once_with e stats now killOk =
      ({ e with last_enforcement := now }, false, []) := by
  have hc1 : ¬ stats.temperature > e.config.temperature.critical :=
    not_lt.mpr (htemp.trans hwc)
  have hc2 : ¬ stats.cpu_usage > e.current_profile.limits.max_cpu_percent :=
    not_lt.mpr hcpu
  have hc3 : ¬ stats.memory_percentage >
      e.current_profile.limits.max_ram_percent := not_lt.mpr hram
  have hc4 : ¬ stats.temperature > e.config.temperature.warning :=
    not_lt.mpr htemp
  simp [enforce_once_with, enforce_resource_limits, hemg,
    hc1, hc2, hc3, hc4]

theorem C8_witness :
    normalEnforcer.emergency_mode = false ∧
    enforce_once_with normalEnforcer calmStats 7 allKillsSucceed =
      ({ normalEnforcer with last_enforcement := 7 }, false, []) :=
  ⟨rfl, C8_no_breach_only_timestamp normalEnforcer calmStats 7
    allKillsSucceed rfl (by decide) (by decide) (by decide) (by decide)⟩

/-! ## C10: notification rate limiting -/

/-- C10 counterexample: two emergency-mode-transition notifications
(`notify_emergency_mode_resolved`) fired 1 s apart — less than the 5 s
interval — are both delivered: the source applies no rate limiting to the
resolved direction. -/
theorem C10_counterexample :
    1000 - 0 < 5000 ∧
    (notify_emergency_mode_resolved
      (NotificationManager.new demoNotifyConfig) 0).2 = true ∧
    (notify_emergency_mode_resolved
      (notify_emergency_mode_resolved
        (NotificationManager.new demoNotifyConfig) 0).1 1000).2 = true := by
  decide

/-- The two routine-warning entry points are the same function (they share
the gate, the interval and the `last_warning_notification` timestamp). -/
theorem temperature_warning_eq_resource_limit :
    notify_temperature_warning = notify_resource_limit_exceeded := rfl

/-- The rate-limited notification categories and their minimum
intervals: 3 s for routine kill and warning events, 5 s for
emergency-mode activation. -/
inductive NotifyCategory where
  | kill
  | warning
  | emergencyEntry
deriving DecidableEq

def category_interval : NotifyCategory → Nat
  | .kill => 3000
  | .warning => 3000
  | .emergencyEntry => 5000

/-- Fire one notification of a rate-limited category. -/
def fire_category (m : NotificationManager) :
    NotifyCategory → Nat → NotificationManager × Bool
  | .kill, now => notify_process_killed m now
  | .warning, now => notify_resource_limit_exceeded m now
  | .emergencyEntry, now => notify_emergency_mode m now

theorem notify_process_killed_second (m : NotificationManager)
    (t1 t2 : Nat) (h1 : (notify_process_killed m t1).2 = true)
    (hlt : t2 - t1 < m.min_interval_between_notifications) :
    (notify_process_killed (notify_process_killed m t1).1 t2).2 = false := by
  obtain ⟨en, sk, sp, lk, le, lw, mi⟩ := m
  cases en with
  | false => simp [notify_process_killed] at h1
  | true =>
    cases sk with
    | false => simp [notify_process_killed] at h1
    | true =>
      cases lk with
      | none => simp [notify_process_killed, hlt]
      | some last =>
        by_cases hrl : t1 - last < mi
        · simp [notify_process_killed, hrl] at h1
        · simp [notify_process_killed, hrl, hlt]

theorem notify_resource_limit_second (m : NotificationManager)
    (t1 t2 : Nat) (h1 : (notify_resource_limit_exceeded m t1).2 = true)
    (hlt : t2 - t1 < m.min_interval_between_notifications) :
    (notify_resource_limit_exceeded
      (notify_resource_limit_exceeded m t1).1 t2).2 = false := by
  obtain ⟨en, sk, sp, lk, le, lw, mi⟩ := m
  cases en with
  | false => simp [notify_resource_limit_exceeded] at h1
  | true =>
    cases lw with
    | none => simp [notify_resource_limit_exceeded, hlt]
    | some last =>
      by_cases hrl : t1 - last < mi
      · simp [notify_resource_limit_exceeded, hrl] at h1
      · simp [notify_resource_limit_exceeded, hrl, hlt]

theorem notify_emergency_mode_second (m : NotificationManager)
    (t1 t2 : Nat) (h1 : (notify_emergency_mode m t1).2 = true)
    (hlt : t2 - t1 < 5000) :
    (notify_emergency_mode (notify_emergency_mode m t1).1 t2).2 = false := by
  obtain ⟨en, sk, sp, lk, le, lw, mi⟩ := m
  cases en with
  | false => simp [notify_emergency_mode] at h1
  | true =>
    cases le with
    | none => simp [notify_emergency_mode, hlt]
    | some last =>
      by_cases hrl : t1 - last < 5000
      · simp [notify_emergency_mode, hrl] at h1
      · simp [notify_emergency_mode, hrl, hlt]

/-- C10 (amended): for the rate-limited categories — routine kill (3 s),
routine warning (3 s), emergency-mode activation (5 s) — when two
notifications of the same category are fired less than the category's
interval apart and the first is delivered, the second is dropped, so
exactly one of the two is delivered.  (Emergency-mode resolution
notifications are exempt: the source never rate-limits them.) -/
theorem C10_rate_limit (m : NotificationManager) (c : NotifyCategory)
    (t1 t2 : Nat)
    (hmin : m.min_interval_between_notifications = 3000)
    (hlt : t2 - t1 < category_interval c)
    (h1 : (fire_category m c t1).2 = true) :
    (fire_category (fire_category m c t1).1 c t2).2 = false := by
  cases c
  · exact notify_process_killed_second m t1 t2 h1
      (by simpa [category_interval, hmin] using hlt)
  · exact notify_resource_limit_second m t1 t2 h1
      (by simpa [category_interval, hmin] using hlt)
  · exact notify_emergency_mode_second m t1 t2 h1
      (by simpa [category_interval] using hlt)

theorem C10_witness :
    (NotificationManager.new
      demoNotifyConfig).min_interval_between_notifications = 3000 ∧
    1000 - 0 < category_interval NotifyCategory.kill ∧
    (fire_category (NotificationManager.new demoNotifyConfig)
      NotifyCategory.kill 0).2 = true ∧
    (fire_category
      (fire_category (NotificationManager.new demoNotifyConfig)
        NotifyCategory.kill 0).1 NotifyCategory.kill 1000).2 = false :=
  ⟨rfl, by decide, by decide,
   C10_rate_limit (NotificationManager.new demoNotifyConfig)
     NotifyCategory.kill 0 1000 rfl (by decide) (by decide)⟩

end Kern
